import Mathlib

/-!
Shallow embedding of the github_application_builder repository:
the asynchronous orchestration pipeline (`src/main.py`, `background_job`),
the delivery subsystem (`src/core/send_eval.py`, `send_evaluation`),
the provisioning adapter (`src/core/github.py`) and the attachment
classification inside the content-generation entry point
(`src/ai/agent.py`, `get_file_content`).

Python dictionaries with a fixed key set become structures; a value that
may be missing from a dict (`dict.get` returning `None`) becomes
`Option`; raising an exception becomes `Except`; network/host behaviour
is an explicit `Host` state threaded through the provisioning calls,
with host-side failures injected through `Host.failOps`.
-/

/-! ## Data model (src/core/model.py) -/

/-- `Attachment` from src/core/model.py: a name and a content locator
(`url`), normally a `data:<media>;base64,<payload>` URI. -/
structure Attachment where
  name : String
  url : String
deriving DecidableEq

/-- `checks: Optional[List[str] | str]` — either a list of strings or a
single string when present. -/
abbrev ChecksVal := Sum (List String) String

/-- `ClientTask` from src/core/model.py.  `EmailStr`/`AnyUrl` are
strings here; optional fields are `Option`. -/
structure ClientTask where
  email : String
  secret : String
  task : String
  round : Int
  evaluation_url : String
  nonce : Option String := none
  brief : Option String := none
  checks : Option ChecksVal := none
  attachments : Option (List Attachment) := none
deriving DecidableEq

/-- `FileContent` from src/core/model.py: one generated file. -/
structure FileContent where
  path : String
  content : String
  commit_message : String
deriving DecidableEq

/-- Python `str(x)` applied to an optional string value:
`str(None)` is the literal text `"None"`. -/
def pyStrOpt : Option String → String
  | none => "None"
  | some s => s

/-- A JSON-compatible payload value: the payload dict in
`background_job` holds strings and one `int` field. -/
inductive JsonVal where
  | str : String → JsonVal
  | int : Int → JsonVal
deriving DecidableEq

/-- Whether a payload value is a JSON string. -/
def JsonVal.isStr : JsonVal → Bool
  | .str _ => true
  | .int _ => false

/-! ## Delivery subsystem (src/core/send_eval.py) -/

/-- Outcome of one network attempt inside `send_evaluation`: an HTTP
status code, or one of the exception classes the code catches
(`httpx.TimeoutException`, `httpx.NetworkError`, any other
`Exception`).  Every branch except status 200 falls through to the
retry logic. -/
inductive AttemptResult where
  | status : Nat → AttemptResult
  | timeoutExc : AttemptResult
  | networkError : AttemptResult
  | otherExc : AttemptResult
deriving DecidableEq

/-- `response.status_code == 200` is the only success case. -/
def AttemptResult.isSuccess : AttemptResult → Bool
  | .status 200 => true
  | _ => false

/-- Result of `send_evaluation`: the returned boolean, how many
attempts were made, and the backoff delays slept (in order). -/
structure SendResult where
  success : Bool
  attemptsMade : Nat
  delays : List Nat
deriving DecidableEq

/-- The `for attempt in range(max_retries)` loop of `send_evaluation`,
started at loop index `attempt`.  `results i` is the outcome of the
attempt with 0-based index `i` (the network environment).  A 200
response returns `True` immediately; otherwise, when more attempts
remain, the loop sleeps `min(2 ** attempt, 16)` and continues; after
the last attempt it returns `False`. -/
def send_loop (results : Nat → AttemptResult) (max_retries attempt : Nat) :
    SendResult :=
  if _h : attempt < max_retries then
    if (results attempt).isSuccess then
      ⟨true, attempt + 1, []⟩
    else if attempt < max_retries - 1 then
      let r := send_loop results max_retries (attempt + 1)
      ⟨r.success, r.attemptsMade, min (2 ^ attempt) 16 :: r.delays⟩
    else
      ⟨false, attempt + 1, []⟩
  else
    ⟨false, attempt, []⟩
termination_by max_retries - attempt

/-- `send_evaluation` from src/core/send_eval.py, abstracted over the
network (`results`).  Total: every exception inside an attempt is
caught by the handlers, so the function always returns a boolean. -/
def send_evaluation (results : Nat → AttemptResult) (max_retries : Nat) :
    SendResult :=
  send_loop results max_retries 0

/-! ## Provisioning adapter (src/core/github.py) -/

/-- One repository on the modelled host: files as a path ↦ content
association list, commit shas newest first, and a pages flag. -/
structure Repo where
  name : String
  files : List (String × String)
  commits : List String
  pagesEnabled : Bool
deriving DecidableEq

/-- The Repository Host as seen through src/core/github.py.  `login`
is the account owner, `repos` the existing repositories, and `failOps`
injects host-side failures: an operation whose name is listed raises a
`GithubException`, which each adapter function catches. -/
structure Host where
  login : String
  repos : List Repo
  failOps : List String
deriving DecidableEq

/-- Look up a repository by name (`user.get_repo`). -/
def Host.findRepo (h : Host) (name : String) : Option Repo :=
  h.repos.find? (fun r => r.name == name)

/-- Replace a repository by name. -/
def Host.setRepo (h : Host) (r : Repo) : Host :=
  { h with repos := h.repos.map (fun x => if x.name == r.name then r else x) }

/-- The repository `auto_init=True` produces: one initial commit. -/
def initRepo (name : String) : Repo :=
  { name := name
  , files := [("README.md", "New Repo Created")]
  , commits := ["init-" ++ name]
  , pagesEnabled := false }

/-- `create_new_repo` from src/core/github.py.  Checks existence via
`user.get_repo`; if that raises `UnknownObjectException` the repo is
created.  A `GithubException`/`Exception` is caught and reported as
`{"message": "failed"}`. -/
def create_new_repo (h : Host) (new_repo_name : String) : Host × String :=
  if h.failOps.contains "create_new_repo" then
    (h, "failed")
  else
    match h.findRepo new_repo_name with
    | some _ => (h, "already exist")
    | none =>
      ({ h with repos := initRepo new_repo_name :: h.repos }, "created")

/-- A fresh commit sha for an upsert of `path` in repo `r`. -/
def nextSha (r : Repo) (path : String) : String :=
  "c-" ++ path ++ "-" ++ toString r.commits.length

/-- `create_or_update_file` from src/core/github.py: read the current
file state; if present, update with the read sha; if
`UnknownObjectException`, create.  Errors are caught and reported as
`"failed"`. -/
def create_or_update_file (h : Host) (repo_name file_path file_content : String)
    (_commit_message : String) : Host × String :=
  if h.failOps.contains "create_or_update_file" then
    (h, "failed")
  else
    match h.findRepo repo_name with
    | none => (h, "failed")
    | some r =>
      match r.files.find? (fun p => p.1 == file_path) with
      | some _ =>
        let r' := { r with
          files := r.files.map
            (fun p => if p.1 == file_path then (p.1, file_content) else p)
          commits := nextSha r file_path :: r.commits }
        (h.setRepo r', "updated")
      | none =>
        let r' := { r with
          files := (file_path, file_content) :: r.files
          commits := nextSha r file_path :: r.commits }
        (h.setRepo r', "created")

/-- `enable_github_pages` from src/core/github.py: a 201 response
enables pages, a 409 means already enabled, anything else (including a
missing repository) is `"failed"`. -/
def enable_github_pages (h : Host) (repo_name : String) : Host × String :=
  if h.failOps.contains "enable_github_pages" then
    (h, "failed")
  else
    match h.findRepo repo_name with
    | none => (h, "failed")
    | some r =>
      if r.pagesEnabled then (h, "already enabled")
      else (h.setRepo { r with pagesEnabled := true }, "enabled")

/-- Names skipped by the bulk upload (`skip_patterns` plus hidden
files). -/
def skipFile (filename : String) : Bool :=
  filename.startsWith "." ||
    ["__pycache__", "node_modules"].contains filename

/-- One step of the bulk-upload walk: skip ignorable names, otherwise
apply the create-or-update logic; a failed file is logged and skipped
(not counted), not fatal to the batch. -/
def uploadStep (repo_name : String) (acc : Host × Nat) (f : String × String) :
    Host × Nat :=
  if skipFile f.1 then acc
  else
    ((create_or_update_file acc.1 repo_name f.1 f.2 ("Add " ++ f.1)).1,
      if (create_or_update_file acc.1 repo_name f.1 f.2 ("Add " ++ f.1)).2
          == "failed"
        then acc.2 else acc.2 + 1)

/-- `uploade_all_public_file_from_local_directory` from
src/core/github.py: walk the scratch directory (given here as a list of
relative path × content pairs), skip ignorable names, and apply the
create-or-update logic per file; a single file failure is skipped, not
fatal.  Returns the new host state and the uploaded count. -/
def uploade_all_public_file_from_local_directory
    (h : Host) (scratch : List (String × String)) (repo_name : String) :
    Host × String × Nat :=
  if h.failOps.contains "uploade_all_public_file_from_local_directory" then
    (h, "failed", 0)
  else
    match h.findRepo repo_name with
    | none => (h, "failed", 0)
    | some _ =>
      let res := scratch.foldl (uploadStep repo_name) (h, 0)
      (res.1, "uploaded", res.2)

/-- The three output fields of `get_output_data`; an empty dict (the
error path) has all three absent, so `dict.get` yields `None`. -/
structure OutputData where
  repo_url : Option String
  commit_sha : Option String
  pages_url : Option String
deriving DecidableEq

/-- The empty dict returned by `get_output_data` on error. -/
def emptyOutputData : OutputData := ⟨none, none, none⟩

/-- `get_output_data` from src/core/github.py: repository URL, latest
commit sha (or `"no commits"`), and the derived pages URL.  On a
`GithubException` (host-side error, including a missing repository)
it returns an empty dict instead of raising. -/
def get_output_data (h : Host) (repo_name : String) : OutputData :=
  if h.failOps.contains "get_output_data" then
    emptyOutputData
  else
    match h.findRepo repo_name with
    | none => emptyOutputData
    | some r =>
      { repo_url := some ("https://github.com/" ++ h.login ++ "/" ++ repo_name)
      , commit_sha := some (match r.commits with
          | [] => "no commits"
          | sha :: _ => sha)
      , pages_url := some ("https://" ++ h.login ++ ".github.io/" ++
          repo_name ++ "/") }

/-! ## Attachment classification and content generation (src/ai/agent.py) -/

/-- Errors raised inside `get_file_content`: iterating a `None`
attachment list (`TypeError`), `parse_data_uri` raising `ValueError`
on a locator without the data-URI shape, `base64.b64decode` raising a
`binascii.Error` on an invalid payload, or the agent run failing. -/
inductive AgentError where
  | typeError : AgentError
  | invalidDataURI : AgentError
  | b64Error : AgentError
  | genFail : AgentError
deriving DecidableEq

/-- Characters of the standard base64 alphabet. -/
def b64Alphabet (c : Char) : Bool :=
  c.isAlphanum || c == Char.ofNat 43 || c == Char.ofNat 47

/-- Python `base64.b64decode` (default `validate=False`): characters
outside the alphabet and padding are discarded, then the remaining
length must be a multiple of four, else `binascii.Error` is raised.
The decoded bytes are abstracted to the kept character string. -/
def b64decode (s : String) : Option String :=
  let kept := s.toList.filter (fun c => b64Alphabet c || c == Char.ofNat 61)
  if kept.length % 4 == 0 then some (String.mk kept) else none

/-- Split a character list at the first occurrence of `sep` (nonempty
here): the lazy `(.*?)` group of the regex takes everything before the
first separator, the greedy `(.*)` everything after it. -/
def splitOnce (sep : List Char) : List Char → Option (List Char × List Char)
  | [] => none
  | c :: rest =>
    if sep.isPrefixOf (c :: rest) then
      some ([], (c :: rest).drop sep.length)
    else
      match splitOnce sep rest with
      | some (before, after) => some (c :: before, after)
      | none => none

/-- `parse_data_uri` from src/ai/agent.py: match the locator against
`data:(.*?);base64,(.*)` anchored at the start and base64-decode the
payload; no match raises `ValueError`, a bad payload raises inside
`b64decode`.  Locators here are single-line, so the newline exclusion
of `.` does not arise. -/
def parse_data_uri (data_uri : String) : Except AgentError (String × String) :=
  let cs := data_uri.toList
  let pre := "data:".toList
  if pre.isPrefixOf cs then
    match splitOnce ";base64,".toList (cs.drop pre.length) with
    | none => .error .invalidDataURI
    | some (media_type, b64_data) =>
      match b64decode (String.mk b64_data) with
      | some bytes => .ok (String.mk media_type, bytes)
      | none => .error .b64Error
  else .error .invalidDataURI

/-- `SENDABLE_TYPES` from src/ai/agent.py. -/
def SENDABLE_TYPES : List String :=
  [ "image/png", "image/jpeg", "image/jpg", "image/gif", "image/webp"
  , "application/pdf", "text/plain", "text/html" ]

/-- One attachment classified: its name, media type and decoded
payload, as computed by `parse_data_uri(a.url)` in the comprehensions
of `get_file_content`.  The code parses each locator once for the
sendable-name comprehension and again for the binary list with the
same result; the embedding parses once. -/
def classifyOne (a : Attachment) : Except AgentError (String × String × String) :=
  match parse_data_uri a.url with
  | .ok (mt, bytes) => .ok (a.name, mt, bytes)
  | .error e => .error e

/-- Left-to-right classification of the whole attachment list, as the
list comprehension evaluates it: the first attachment whose locator
fails to parse raises out of the entire comprehension. -/
def classifyAll : List Attachment →
    Except AgentError (List (String × String × String))
  | [] => .ok []
  | a :: rest =>
    match classifyOne a, classifyAll rest with
    | .error e, _ => .error e
    | .ok _, .error e => .error e
    | .ok p, .ok ps => .ok (p :: ps)

/-- Comma-joined single-quoted items of a Python list repr. -/
def pyListReprItems : List String → String
  | [] => ""
  | [s] =>
    String.singleton (Char.ofNat 39) ++ s ++ String.singleton (Char.ofNat 39)
  | s :: rest =>
    String.singleton (Char.ofNat 39) ++ s ++ String.singleton (Char.ofNat 39)
      ++ ", " ++ pyListReprItems rest

/-- Python list repr of a list of strings, as an f-string would render
it (single-quoted elements). -/
def pyListRepr (l : List String) : String :=
  "[" ++ pyListReprItems l ++ "]"

/-- F-string rendering of the `checks` field
(`Optional[List[str] | str]`). -/
def pyStrChecks : Option ChecksVal → String
  | none => "None"
  | some (.inl l) => pyListRepr l
  | some (.inr s) => s

/-- The user prompt built in `get_file_content` (src/ai/agent.py lines
264–280), as its interpolated slots: the `-----task-----` section, the
`-----brief-----` section, the `-----checks-----` section, the
directly-sent attachment names and all attachment names.  The source
interpolates `client_task.brief` into the checks section. -/
structure Prompt where
  taskSlot : String
  briefSlot : String
  checksSlot : String
  sendableSlot : List String
  allSlot : List String
deriving DecidableEq

/-- The prompt as the source builds it: note `checksSlot` is filled
from `client_task.brief` (line 272), not from `client_task.checks`. -/
def buildPrompt (ct : ClientTask) (sendable allNames : List String) : Prompt :=
  { taskSlot := ct.task
  , briefSlot := pyStrOpt ct.brief
  , checksSlot := pyStrOpt ct.brief
  , sendableSlot := sendable
  , allSlot := allNames }

/-- The Content Generator (the `build_app_agent.run` call), abstracted
as a function from the prompt and the directly-sent binary attachments
(media type × bytes) to generated files, or failure. -/
abbrev GenFn := Prompt → List (String × String) → Except Unit (List FileContent)

/-- `get_file_content` from src/ai/agent.py.  Iterating
`client_task.attachments` when it is `None` raises `TypeError`; the
comprehension calls `parse_data_uri` on every attachment, so the first
malformed locator raises out of the whole function; otherwise the
sendable names are those with a media type in `SENDABLE_TYPES`, the
binary attachments those whose name is in the sendable list, and the
agent is run on the prompt. -/
def get_file_content (ct : ClientTask) (gen : GenFn) :
    Except AgentError (List FileContent) :=
  match ct.attachments with
  | none => .error .typeError
  | some atts =>
    match classifyAll atts with
    | .error e => .error e
    | .ok parsed =>
      let sendable :=
        (parsed.filter (fun p => SENDABLE_TYPES.contains p.2.1)).map
          (fun p => p.1)
      let allNames := atts.map (fun a => a.name)
      let binary := (parsed.filter (fun p => sendable.contains p.1)).map
        (fun p => p.2)
      match gen (buildPrompt ct sendable allNames) binary with
      | .ok files => .ok files
      | .error _ => .error .genFail

/-! ## Orchestration pipeline (src/main.py, `background_job`) -/

/-- `new_data` as the fallback dict of `background_job`: the three
sentinel placeholder values. -/
def fallbackData : OutputData := ⟨some "...", some "...", some "..."⟩

/-- The delivery payload dict built in `background_job` lines 87–95:
`email`, `task`, `nonce`, `repo_url`, `commit_sha`, `pages_url` pass
through Python `str(...)`, while `round` passes through
`int(client_task.round)` and stays an integer. -/
structure Payload where
  email : JsonVal
  task : JsonVal
  round : JsonVal
  nonce : JsonVal
  repo_url : JsonVal
  commit_sha : JsonVal
  pages_url : JsonVal
deriving DecidableEq

/-- The payload construction of `background_job`: `str` on every field
except `round`, which is `int(client_task.round)`; the outcome fields
go through `new_data.get(...)`, so a missing key becomes `None` and
then the text `"None"`. -/
def mkPayload (ct : ClientTask) (new_data : OutputData) : Payload :=
  { email := .str ct.email
  , task := .str ct.task
  , round := .int ct.round
  , nonce := .str (pyStrOpt ct.nonce)
  , repo_url := .str (pyStrOpt new_data.repo_url)
  , commit_sha := .str (pyStrOpt new_data.commit_sha)
  , pages_url := .str (pyStrOpt new_data.pages_url) }

/-- How the inner github block of `background_job` (lines 47–67) ends:
normally with the collected `new_data`, with `asyncio.TimeoutError`,
or with any other exception (classification, generation, or other). -/
inductive PhaseOutcome where
  | ok : OutputData → PhaseOutcome
  | timeout : PhaseOutcome
  | error : AgentError → PhaseOutcome
deriving DecidableEq

/-- Observable result of one `background_job` run: the `new_data` used
for the payload, the payload handed to `send_evaluation`, whether
delivery was invoked, how many times the github phase block ran, and
the scratch-directory bookkeeping (`public_path`): whether the
pre-existing directory was removed at the start, and whether the
directory exists when the run ends. -/
structure JobResult where
  new_data : OutputData
  payload : Payload
  deliveryInvoked : Bool
  phaseAttempts : Nat
  dirRemovedAtStart : Bool
  dirExistsAtEnd : Bool
deriving DecidableEq

/-- `background_job` from src/main.py, abstracted over how the inner
github block ends (`outcome`) and whether the scratch directory was
left over from a previous run (`dirPreExists`).  The code deletes a
pre-existing `public_path` and recreates it at the start of the try
block; on `TimeoutError` or any other exception it substitutes the
fallback dict; in every case it then builds the payload and awaits
`send_evaluation`.  No cleanup of `public_path` happens on any exit
path, and the github block is executed exactly once — never
retried. -/
def background_job (ct : ClientTask) (dirPreExists : Bool)
    (outcome : PhaseOutcome) : JobResult :=
  let new_data := match outcome with
    | .ok d => d
    | .timeout => fallbackData
    | .error _ => fallbackData
  { new_data := new_data
  , payload := mkPayload ct new_data
  , deliveryInvoked := true
  , phaseAttempts := 1
  , dirRemovedAtStart := dirPreExists
  , dirExistsAtEnd := true }

/-- The per-generated-file commit loop of `background_job` (line
59–60): `create_or_update_file` per file, in generation order, each
call catching its own errors. -/
def upsertAllFiles (h : Host) (repo_name : String)
    (files : List FileContent) : Host :=
  files.foldl
    (fun h f =>
      (create_or_update_file h repo_name f.path f.content
        f.commit_message).1)
    h

/-- The host state after the provisioning calls of a successful
generation: create repo, upsert each generated file, bulk-upload the
scratch directory, enable pages.  Every call's status message is
discarded by `background_job`, so a `"failed"` adapter result does not
stop the sequence. -/
def hostAfterProvisioning (h : Host) (ct : ClientTask)
    (files : List FileContent) (scratch : List (String × String)) : Host :=
  let new_repo_name := "test_" ++ ct.task
  let h1 := (create_new_repo h new_repo_name).1
  let h2 := upsertAllFiles h1 new_repo_name files
  let h3 := (uploade_all_public_file_from_local_directory h2 scratch
    new_repo_name).1
  (enable_github_pages h3 new_repo_name).1

/-- The inner github block of `background_job` (lines 55–66), run
against a concrete host: derive the repository name `"test_" + task`,
create the repository (result unused), generate the files, upsert each
generated file in order, bulk-upload the scratch directory contents,
enable pages, and collect the output data.  Only `get_file_content`
can raise here — every adapter call catches its own errors. -/
def runGithubPhase (h : Host) (ct : ClientTask) (gen : GenFn)
    (scratch : List (String × String)) : Host × PhaseOutcome :=
  let new_repo_name := "test_" ++ ct.task
  let h1 := (create_new_repo h new_repo_name).1
  match get_file_content ct gen with
  | .error e => (h1, .error e)
  | .ok list_file =>
    let h4 := hostAfterProvisioning h ct list_file scratch
    (h4, .ok (get_output_data h4 new_repo_name))

/-- One full `background_job` run against a concrete host: run the
github phase, then the payload/delivery tail. -/
def runPipeline (h : Host) (ct : ClientTask) (gen : GenFn)
    (scratch : List (String × String)) (dirPreExists : Bool) :
    Host × JobResult :=
  ((runGithubPhase h ct gen scratch).1,
    background_job ct dirPreExists (runGithubPhase h ct gen scratch).2)

/-- Whether an `Except` computation succeeded. -/
def exceptOk {ε α : Type} : Except ε α → Bool
  | .ok _ => true
  | .error _ => false

/-- Number of repositories with a given name on the host. -/
def repoCount (h : Host) (name : String) : Nat :=
  (h.repos.filter (fun r => r.name == name)).length

/-! ## Delivery lemmas -/

lemma range_shift_map (g : Nat → Nat) (a n : Nat) :
    (List.range (n + 1)).map (fun i => g (a + i)) =
      g a :: (List.range n).map (fun i => g (a + 1 + i)) := by
  have hfun : (fun i => g (a + i)) ∘ Nat.succ = fun i => g (a + 1 + i) := by
    funext i
    simp only [Function.comp_apply]
    congr 1
    omega
  rw [List.range_succ_eq_map, List.map_cons, List.map_map, hfun]
  simp

lemma delay_range_shift (a n : Nat) :
    (List.range (n + 1)).map (fun i => min (2 ^ (a + i)) 16) =
      min (2 ^ a) 16 :: (List.range n).map (fun i => min (2 ^ (a + 1 + i)) 16) := by
  simpa using range_shift_map (fun x => min (2 ^ x) 16) a n

lemma send_loop_all_fail (results : Nat → AttemptResult) (m : Nat) :
    ∀ n a, m - a ≤ n → a ≤ m →
      (∀ i, a ≤ i → i < m → (results i).isSuccess = false) →
      send_loop results m a =
        ⟨false, m, (List.range (m - 1 - a)).map (fun i => min (2 ^ (a + i)) 16)⟩ := by
  intro n
  induction n with
  | zero =>
    intro a hn ha _
    have ham : a = m := by omega
    subst ham
    rw [send_loop]
    simp
  | succ n ih =>
    intro a hn ha hfail
    by_cases hlt : a < m
    · rw [send_loop, dif_pos hlt, hfail a le_rfl hlt]
      simp only [Bool.false_eq_true, if_false]
      by_cases h2 : a < m - 1
      · rw [if_pos h2,
          ih (a + 1) (by omega) (by omega) (fun i h1 h3 => hfail i (by omega) h3)]
        have hm : m - 1 - a = (m - 1 - (a + 1)) + 1 := by omega
        rw [hm, delay_range_shift]
      · rw [if_neg h2]
        have hm0 : m - 1 - a = 0 := by omega
        have ham : a + 1 = m := by omega
        rw [hm0, ham]
        simp
    · have ham : a = m := by omega
      subst ham
      rw [send_loop]
      simp

lemma send_loop_first_success (results : Nat → AttemptResult) (m k : Nat)
    (hk : k < m) (hsucc : (results k).isSuccess = true) :
    ∀ n a, k - a ≤ n → a ≤ k →
      (∀ i, a ≤ i → i < k → (results i).isSuccess = false) →
      send_loop results m a =
        ⟨true, k + 1, (List.range (k - a)).map (fun i => min (2 ^ (a + i)) 16)⟩ := by
  intro n
  induction n with
  | zero =>
    intro a hn ha _
    have hak : a = k := by omega
    subst hak
    rw [send_loop, dif_pos (by omega), hsucc]
    simp
  | succ n ih =>
    intro a hn ha hfail
    by_cases hak : a = k
    · subst hak
      rw [send_loop, dif_pos (by omega), hsucc]
      simp
    · have hlt : a < k := by omega
      rw [send_loop, dif_pos (by omega), hfail a le_rfl hlt]
      simp only [Bool.false_eq_true, if_false]
      rw [if_pos (by omega),
        ih (a + 1) (by omega) (by omega) (fun i h1 h3 => hfail i (by omega) h3)]
      have hm : k - a = (k - (a + 1)) + 1 := by omega
      rw [hm, delay_range_shift]

/-! ## Claim C4 -/

/-- C4: against a persistently failing endpoint, `send_evaluation`
performs exactly `max_retries` attempts and returns false; the delays
slept are `min(2^0,16), …, min(2^(max_retries-2),16)`, so the backoff
before attempt `k` (1-indexed, `k > 1`) is `min(2^(k-2),16)` — 1, 2,
4, 8, 16 time units before attempts 2..6 — and no delay follows the
final attempt (exactly `max_retries - 1` sleeps happen). -/
theorem send_evaluation_exhausts_with_capped_backoff
    (results : Nat → AttemptResult) (max_retries : Nat)
    (hfail : ∀ i, i < max_retries → (results i).isSuccess = false) :
    (send_evaluation results max_retries).success = false ∧
    (send_evaluation results max_retries).attemptsMade = max_retries ∧
    (send_evaluation results max_retries).delays =
      (List.range (max_retries - 1)).map (fun i => min (2 ^ i) 16) ∧
    (send_evaluation results max_retries).delays.length = max_retries - 1 ∧
    ∀ k, 2 ≤ k → k ≤ max_retries →
      (send_evaluation results max_retries).delays.get? (k - 2) =
        some (min (2 ^ (k - 2)) 16) := by
  have h := send_loop_all_fail results max_retries (max_retries - 0) 0
    le_rfl (Nat.zero_le _) (fun i _ hi => hfail i hi)
  simp only [Nat.zero_add, Nat.sub_zero] at h
  unfold send_evaluation
  rw [h]
  refine ⟨rfl, rfl, by simp, by simp, ?_⟩
  intro k hk2 hkm
  have hlt : k - 2 < max_retries - 1 := by omega
  rw [List.get?_eq_getElem?, List.getElem?_map, List.getElem?_range hlt]
  rfl

/-! ## Concrete fixtures used by witnesses and counterexamples -/

/-- A Content Generator returning exactly the single file of the
end-to-end example: `index.html` / `<h1>hi</h1>` / `"init"`. -/
def demoGen : GenFn := fun _ _ => .ok [⟨"index.html", "<h1>hi</h1>", "init"⟩]

/-- The example job: task `"demo"`, an explicitly empty attachment
list. -/
def demoTaskEmpty : ClientTask :=
  { email := "a@b.com", secret := "s", task := "demo", round := 1
  , evaluation_url := "http://eval", nonce := none, brief := none
  , checks := none, attachments := some [] }

/-- The example job with the attachment list absent (`None`), the
model default when the submission carries no attachments. -/
def demoTaskNone : ClientTask :=
  { demoTaskEmpty with attachments := none }

/-- A fresh, healthy host. -/
def happyHost : Host := ⟨"owner", [], []⟩

/-! ## Claim C9 -/

/-- C9: `create_new_repo` is idempotent: after a call that reports
`"created"`, a second call with the same name reports
`"already exist"` (not an error and not a second creation), leaves the
host state unchanged, and the host then holds exactly one repository
with that name; moreover, on any host, the call reports `"failed"`
exactly when the host itself errors. -/
theorem create_new_repo_idempotent (h : Host) (name : String)
    (hc : (create_new_repo h name).2 = "created") :
    create_new_repo (create_new_repo h name).1 name =
      ((create_new_repo h name).1, "already exist") ∧
    repoCount (create_new_repo h name).1 name = 1 ∧
    (("already exist" : String) ≠ "failed" ∧
      ("already exist" : String) ≠ "created") ∧
    ∀ h2 : Host, ∀ n2 : String,
      ((create_new_repo h2 n2).2 = "failed" ↔
        h2.failOps.contains "create_new_repo" = true) := by
  have hgen : ∀ h2 : Host, ∀ n2 : String,
      ((create_new_repo h2 n2).2 = "failed" ↔
        h2.failOps.contains "create_new_repo" = true) := by
    intro h2 n2
    unfold create_new_repo
    by_cases hop2 : "create_new_repo" ∈ h2.failOps
    · simp [hop2]
    · cases hfind2 : h2.findRepo n2 <;> simp [hop2, hfind2]
  unfold create_new_repo at hc
  by_cases hop : "create_new_repo" ∈ h.failOps
  · rw [if_pos (by simpa using hop)] at hc
    simp at hc
  · rw [if_neg (by simpa using hop)] at hc
    cases hfind : h.findRepo name with
    | some r =>
      rw [hfind] at hc
      simp at hc
    | none =>
      have h1eq : create_new_repo h name =
          ({ h with repos := initRepo name :: h.repos }, "created") := by
        unfold create_new_repo
        rw [if_neg (by simpa using hop), hfind]
      rw [h1eq]
      have hfind1 : Host.findRepo
          { h with repos := initRepo name :: h.repos } name
          = some (initRepo name) := by
        unfold Host.findRepo
        simp [initRepo]
      refine ⟨?_, ?_, by decide, hgen⟩
      · unfold create_new_repo
        simp [hop, hfind1]
      · have hnil : h.repos.filter (fun r => r.name == name) = [] := by
          rw [List.filter_eq_nil_iff]
          intro r hr
          simpa using List.find?_eq_none.mp hfind r hr
        simp [repoCount, List.filter_cons, initRepo, hnil]

/-- Witness for C9: creating `"test_demo"` on a fresh host reports
`"created"`; the theorem then gives that the second call reports
`"already exist"`, changes nothing, and exactly one such repository
exists. -/
theorem create_new_repo_idempotent_witness :
    create_new_repo (create_new_repo happyHost "test_demo").1 "test_demo" =
      ((create_new_repo happyHost "test_demo").1, "already exist") ∧
    repoCount (create_new_repo happyHost "test_demo").1 "test_demo" = 1 :=
  ⟨(create_new_repo_idempotent happyHost "test_demo" (by decide)).1,
   (create_new_repo_idempotent happyHost "test_demo" (by decide)).2.1⟩

/-! ## Claim C2 -/

/-- C2: when the github block of `background_job` ends in a timeout or
an unrecoverable error, the run does not abort: the fallback dict is
substituted, the payload is still constructed from it, delivery is
still invoked, and the github block is never retried (it runs exactly
once). -/
theorem pipeline_falls_back_and_delivers (ct : ClientTask) (pre : Bool)
    (outcome : PhaseOutcome)
    (h : outcome = PhaseOutcome.timeout ∨
      ∃ e, outcome = PhaseOutcome.error e) :
    (background_job ct pre outcome).new_data = fallbackData ∧
    (background_job ct pre outcome).payload = mkPayload ct fallbackData ∧
    (background_job ct pre outcome).deliveryInvoked = true ∧
    (background_job ct pre outcome).phaseAttempts = 1 := by
  rcases h with h | ⟨e, h⟩ <;> subst h <;> exact ⟨rfl, rfl, rfl, rfl⟩

/-- Witness for C2: the demo job whose github block times out still
builds the fallback payload and invokes delivery, with the block run
once. -/
theorem pipeline_falls_back_witness :
    (background_job demoTaskEmpty false PhaseOutcome.timeout).new_data =
      fallbackData ∧
    (background_job demoTaskEmpty false PhaseOutcome.timeout).payload =
      mkPayload demoTaskEmpty fallbackData ∧
    (background_job demoTaskEmpty false PhaseOutcome.timeout).deliveryInvoked =
      true ∧
    (background_job demoTaskEmpty false PhaseOutcome.timeout).phaseAttempts =
      1 :=
  pipeline_falls_back_and_delivers demoTaskEmpty false PhaseOutcome.timeout
    (Or.inl rfl)

/-! ## Claim C1 -/

/-- C1 counterexample: in the payload built by the pipeline for the
demo job (submitted round 1), the `round` field is the JSON integer 1
— not a JSON string, and in particular not the string `"1"` — so the
claim that all seven keys are serialized as strings, with `round` the
submitted round rendered as a string, is false. -/
theorem payload_round_not_string_counterexample :
    (background_job demoTaskEmpty false (PhaseOutcome.ok fallbackData)
      ).payload.round = JsonVal.int 1 ∧
    (background_job demoTaskEmpty false (PhaseOutcome.ok fallbackData)
      ).payload.round.isStr = false ∧
    (background_job demoTaskEmpty false (PhaseOutcome.ok fallbackData)
      ).payload.round ≠ JsonVal.str "1" := by
  refine ⟨rfl, rfl, ?_⟩
  decide

/-- C1 amended: six of the seven payload keys (email, task, nonce,
repo_url, commit_sha, pages_url) are serialized as strings, with an
absent optional value rendered as the literal text `"None"` (via
`pyStrOpt`); the `round` key is serialized as the submitted round
number kept as a JSON integer, not rendered as a string. -/
theorem payload_serialization_amended (ct : ClientTask) (pre : Bool)
    (outcome : PhaseOutcome) :
    (background_job ct pre outcome).payload.email = JsonVal.str ct.email ∧
    (background_job ct pre outcome).payload.task = JsonVal.str ct.task ∧
    (background_job ct pre outcome).payload.nonce =
      JsonVal.str (pyStrOpt ct.nonce) ∧
    (background_job ct pre outcome).payload.repo_url.isStr = true ∧
    (background_job ct pre outcome).payload.commit_sha.isStr = true ∧
    (background_job ct pre outcome).payload.pages_url.isStr = true ∧
    (background_job ct pre outcome).payload.round = JsonVal.int ct.round ∧
    (background_job ct pre outcome).payload.round.isStr = false := by
  cases outcome <;> exact ⟨rfl, rfl, rfl, rfl, rfl, rfl, rfl, rfl⟩

/-! ## Claim C6 -/

/-- C6 counterexample: a run of `background_job` (here: the demo job
hitting the timeout path, with a leftover scratch directory) ends with
the scratch directory still existing — it is not removed before the
run ends, on this or any other exit path. -/
theorem scratch_dir_survives_run_counterexample :
    (background_job demoTaskEmpty true PhaseOutcome.timeout).dirExistsAtEnd
      = true ∧
    ((background_job demoTaskEmpty true PhaseOutcome.timeout).dirExistsAtEnd
      = false → False) := by
  exact ⟨rfl, fun hcontra => by exact absurd hcontra (by decide)⟩

/-- C6 amended: the scratch working directory is deleted at the START
of a run when left over from a previous run for the same task, then
recreated; on every exit path (success, error, or timeout) the run
ends with the directory still in place — cleanup is deferred to the
next run for that task, not performed before the run ends. -/
theorem scratch_dir_lifecycle_amended (ct : ClientTask) (pre : Bool)
    (outcome : PhaseOutcome) :
    (background_job ct pre outcome).dirRemovedAtStart = pre ∧
    (background_job ct pre outcome).dirExistsAtEnd = true := by
  cases outcome <;> exact ⟨rfl, rfl⟩

/-! ## Claim C3 -/

/-- A well-formed inline attachment. -/
def goodAtt : Attachment := ⟨"good", "data:text/plain;base64,aGk="⟩

/-- An attachment whose locator lacks the `data:` prefix. -/
def badAtt : Attachment := ⟨"bad", "http://x"⟩

/-- The demo job carrying one good and one malformed attachment. -/
def mixedTask : ClientTask :=
  { demoTaskEmpty with attachments := some [goodAtt, badAtt] }

lemma classifyAll_error_of_bad (atts : List Attachment)
    (hbad : ∃ a ∈ atts, exceptOk (parse_data_uri a.url) = false) :
    ∃ e, classifyAll atts = .error e := by
  induction atts with
  | nil =>
    obtain ⟨a, ha, _⟩ := hbad
    exact absurd ha (List.not_mem_nil a)
  | cons x xs ih =>
    obtain ⟨a, ha, hpa⟩ := hbad
    rcases List.mem_cons.mp ha with rfl | hmem
    · cases hp : parse_data_uri a.url with
      | ok v =>
        rw [hp] at hpa
        exact absurd hpa (by simp [exceptOk])
      | error e =>
        have hca : classifyOne a = .error e := by
          unfold classifyOne
          rw [hp]
        exact ⟨e, by simp [classifyAll, hca]⟩
    · obtain ⟨e, he⟩ := ih ⟨a, hmem, hpa⟩
      cases hx : classifyOne x with
      | error e2 => exact ⟨e2, by simp [classifyAll, hx]⟩
      | ok p => exact ⟨e, by simp [classifyAll, hx, he]⟩

/-- C3 counterexample: a job with one well-formed attachment followed
by one whose locator lacks the `data:` prefix.  The well-formed
locator parses fine on its own, yet `get_file_content` raises
`ValueError` for the whole list: the sibling attachment is NOT
classified normally — classification of the remaining attachments does
not survive one malformed locator. -/
theorem sibling_classification_aborted_counterexample :
    exceptOk (parse_data_uri goodAtt.url) = true ∧
    get_file_content mixedTask demoGen = .error AgentError.invalidDataURI := by
  exact ⟨rfl, rfl⟩

/-- C3 amended: a malformed locator (missing the `data:` prefix or
with an invalid base64 payload) fails classification for the ENTIRE
attachment list of the job — the exception propagates out of
`get_file_content`, so no sibling attachment is classified — but the
job as a whole still completes: the pipeline catches the error,
substitutes the fallback outcome, and still delivers. -/
theorem malformed_locator_aborts_whole_classification
    (h : Host) (ct : ClientTask) (gen : GenFn)
    (scratch : List (String × String)) (pre : Bool)
    (atts : List Attachment)
    (hatts : ct.attachments = some atts)
    (hbad : ∃ a ∈ atts, exceptOk (parse_data_uri a.url) = false) :
    exceptOk (get_file_content ct gen) = false ∧
    (runPipeline h ct gen scratch pre).2.new_data = fallbackData ∧
    (runPipeline h ct gen scratch pre).2.payload = mkPayload ct fallbackData ∧
    (runPipeline h ct gen scratch pre).2.deliveryInvoked = true := by
  obtain ⟨e, he⟩ := classifyAll_error_of_bad atts hbad
  have hgfc : get_file_content ct gen = .error e := by
    unfold get_file_content
    rw [hatts]
    simp [he]
  refine ⟨by rw [hgfc]; rfl, ?_, ?_, ?_⟩ <;>
    simp [runPipeline, runGithubPhase, hgfc, background_job]

/-- Witness for C3 (amended): the two-attachment job above indeed
fails classification as a whole, yet still builds the fallback payload
and invokes delivery. -/
theorem malformed_locator_witness :
    exceptOk (get_file_content mixedTask demoGen) = false ∧
    (runPipeline happyHost mixedTask demoGen [] false).2.payload =
      mkPayload mixedTask fallbackData ∧
    (runPipeline happyHost mixedTask demoGen [] false).2.deliveryInvoked =
      true :=
  ⟨(malformed_locator_aborts_whole_classification happyHost mixedTask
      demoGen [] false [goodAtt, badAtt] rfl
      ⟨badAtt, by simp, by rfl⟩).1,
   (malformed_locator_aborts_whole_classification happyHost mixedTask
      demoGen [] false [goodAtt, badAtt] rfl
      ⟨badAtt, by simp, by rfl⟩).2.2.1,
   (malformed_locator_aborts_whole_classification happyHost mixedTask
      demoGen [] false [goodAtt, badAtt] rfl
      ⟨badAtt, by simp, by rfl⟩).2.2.2⟩

/-- Witness for C4: with every attempt answering HTTP 500 and six
attempts configured, delivery makes six attempts, sleeps exactly
1, 2, 4, 8, 16 time units between them, and returns false. -/
theorem send_evaluation_exhausts_witness :
    (send_evaluation (fun _ => .status 500) 6).success = false ∧
    (send_evaluation (fun _ => .status 500) 6).attemptsMade = 6 ∧
    (send_evaluation (fun _ => .status 500) 6).delays = [1, 2, 4, 8, 16] :=
  ⟨(send_evaluation_exhausts_with_capped_backoff (fun _ => .status 500) 6
      (by decide)).1,
   (send_evaluation_exhausts_with_capped_backoff (fun _ => .status 500) 6
      (by decide)).2.1,
   ((send_evaluation_exhausts_with_capped_backoff (fun _ => .status 500) 6
      (by decide)).2.2.1).trans (by decide)⟩

/-! ## Claim C8 -/

/-- C8: `send_evaluation` is a total boolean-valued function (never
raises), and on the first attempt whose response has status 200 it
returns true immediately: if the success happens at 0-based attempt
index `k`, exactly `k + 1` attempts are made and exactly `k` backoff
sleeps happen — none after the successful attempt. -/
theorem send_evaluation_returns_true_on_first_success
    (results : Nat → AttemptResult) (max_retries k : Nat)
    (hk : k < max_retries)
    (hsucc : (results k).isSuccess = true)
    (hbefore : ∀ i, i < k → (results i).isSuccess = false) :
    (send_evaluation results max_retries).success = true ∧
    (send_evaluation results max_retries).attemptsMade = k + 1 ∧
    (send_evaluation results max_retries).delays =
      (List.range k).map (fun i => min (2 ^ i) 16) ∧
    (send_evaluation results max_retries).delays.length = k := by
  have h := send_loop_first_success results max_retries k hk hsucc (k - 0) 0
    le_rfl (Nat.zero_le _) (fun i _ hi => hbefore i hi)
  simp only [Nat.zero_add, Nat.sub_zero] at h
  unfold send_evaluation
  rw [h]
  exact ⟨rfl, rfl, by simp, by simp⟩

/-- Witness for C8: the endpoint times out twice and then answers 200
on the third attempt; delivery returns true after exactly three
attempts with exactly the two sleeps that precede the success. -/
theorem send_evaluation_first_success_witness :
    (send_evaluation (fun i => if i == 2 then .status 200 else .timeoutExc)
        5).success = true ∧
    (send_evaluation (fun i => if i == 2 then .status 200 else .timeoutExc)
        5).attemptsMade = 3 ∧
    (send_evaluation (fun i => if i == 2 then .status 200 else .timeoutExc)
        5).delays = [1, 2] :=
  ⟨(send_evaluation_returns_true_on_first_success
      (fun i => if i == 2 then .status 200 else .timeoutExc) 5 2
      (by decide) (by decide) (by decide)).1,
   (send_evaluation_returns_true_on_first_success
      (fun i => if i == 2 then .status 200 else .timeoutExc) 5 2
      (by decide) (by decide) (by decide)).2.1,
   ((send_evaluation_returns_true_on_first_success
      (fun i => if i == 2 then .status 200 else .timeoutExc) 5 2
      (by decide) (by decide) (by decide)).2.2.1).trans (by decide)⟩


/-! ## Claim C5 -/

/-- C5: the demo job ("demo", no attachments — the model default
`None` — with the Content Generator returning exactly
`index.html`/`<h1>hi</h1>`/`"init"`).  Iterating
`client_task.attachments` in `get_file_content` raises `TypeError`
when it is `None`, so the pipeline substitutes the FALLBACK outcome
(placeholder `"..."` values), not a real one, and delivers that.  With
an explicitly empty attachment list instead, the intended behavior
appears: a real repository URL and the latest commit id are produced
and delivered. -/
theorem demo_without_attachments_falls_back :
    get_file_content demoTaskNone demoGen = .error AgentError.typeError ∧
    (runPipeline happyHost demoTaskNone demoGen [] false).2.payload =
      mkPayload demoTaskNone fallbackData ∧
    (runPipeline happyHost demoTaskNone demoGen [] false).2.payload.repo_url =
      JsonVal.str "..." ∧
    (runPipeline happyHost demoTaskNone demoGen [] false).2.deliveryInvoked =
      true ∧
    (runPipeline happyHost demoTaskEmpty demoGen [] false).2.payload.repo_url =
      JsonVal.str "https://github.com/owner/test_demo" ∧
    (runPipeline happyHost demoTaskEmpty demoGen [] false
      ).2.payload.commit_sha = JsonVal.str "c-index.html-1" ∧
    (runPipeline happyHost demoTaskEmpty demoGen [] false).2.deliveryInvoked =
      true := by
  exact ⟨rfl, rfl, rfl, rfl, rfl, rfl, rfl⟩

/-! ## Claim C7 -/

/-- The demo job with a brief and a checks list that differ. -/
def briefChecksTask : ClientTask :=
  { demoTaskEmpty with
      brief := some "the brief", checks := some (Sum.inl ["check one"]) }

/-- A Content Generator probe that echoes the checks slot of the
prompt it receives as the path of a generated file. -/
def probeGen : GenFn := fun p _ => .ok [⟨p.checksSlot, "", "probe"⟩]

/-- C7: the prompt built by `get_file_content` interpolates
`client_task.brief` into its `-----checks-----` section (line 272 of
src/ai/agent.py), not `client_task.checks`: on a job whose brief is
`"the brief"` and whose checks are `["check one"]`, the checks slot of
the prompt carries the brief, and the Content Generator observably
receives the brief where the checks belong. -/
theorem checks_slot_reads_brief :
    (buildPrompt briefChecksTask [] []).checksSlot = "the brief" ∧
    (buildPrompt briefChecksTask [] []).checksSlot ≠
      pyStrChecks briefChecksTask.checks ∧
    pyStrChecks briefChecksTask.checks = pyListRepr ["check one"] ∧
    get_file_content briefChecksTask probeGen =
      .ok [⟨"the brief", "", "probe"⟩] := by
  exact ⟨rfl, by decide, rfl, rfl⟩

/-! ## Claim C10 -/

lemma failOps_create_new_repo (h : Host) (n : String) :
    ((create_new_repo h n).1).failOps = h.failOps := by
  unfold create_new_repo
  split
  · rfl
  · split <;> rfl

lemma failOps_create_or_update_file (h : Host) (rn p c m : String) :
    ((create_or_update_file h rn p c m).1).failOps = h.failOps := by
  unfold create_or_update_file
  split
  · rfl
  · split
    · rfl
    · split <;> rfl

lemma failOps_upsertAllFiles (rn : String) (files : List FileContent) :
    ∀ h : Host, (upsertAllFiles h rn files).failOps = h.failOps := by
  induction files with
  | nil => intro h; rfl
  | cons f fs ih =>
    intro h
    unfold upsertAllFiles at ih ⊢
    rw [List.foldl_cons, ih, failOps_create_or_update_file]

lemma failOps_uploadStep_foldl (rn : String) (scratch : List (String × String)) :
    ∀ acc : Host × Nat,
      ((scratch.foldl (uploadStep rn) acc).1).failOps = acc.1.failOps := by
  induction scratch with
  | nil => intro acc; rfl
  | cons f fs ih =>
    intro acc
    rw [List.foldl_cons, ih]
    unfold uploadStep
    split
    · rfl
    · exact failOps_create_or_update_file acc.1 rn f.1 f.2 ("Add " ++ f.1)

lemma failOps_uploade (h : Host) (scratch : List (String × String))
    (rn : String) :
    ((uploade_all_public_file_from_local_directory h scratch rn).1).failOps =
      h.failOps := by
  unfold uploade_all_public_file_from_local_directory
  split
  · rfl
  · split
    · rfl
    · simpa using failOps_uploadStep_foldl rn scratch (h, 0)

lemma failOps_enable_github_pages (h : Host) (rn : String) :
    ((enable_github_pages h rn).1).failOps = h.failOps := by
  unfold enable_github_pages
  split
  · rfl
  · split
    · rfl
    · split <;> rfl

lemma failOps_hostAfterProvisioning (h : Host) (ct : ClientTask)
    (files : List FileContent) (scratch : List (String × String)) :
    (hostAfterProvisioning h ct files scratch).failOps = h.failOps := by
  unfold hostAfterProvisioning
  rw [failOps_enable_github_pages, failOps_uploade, failOps_upsertAllFiles,
    failOps_create_new_repo]

lemma runGithubPhase_of_gen_ok (h : Host) (ct : ClientTask) (gen : GenFn)
    (scratch : List (String × String)) (files : List FileContent)
    (hgen : get_file_content ct gen = .ok files) :
    runGithubPhase h ct gen scratch =
      (hostAfterProvisioning h ct files scratch,
        .ok (get_output_data (hostAfterProvisioning h ct files scratch)
          ("test_" ++ ct.task))) := by
  unfold runGithubPhase
  rw [hgen]

/-- C10: if the collect-state call hits a host-side error,
`get_output_data` returns an empty dict instead of raising, and the
pipeline builds a payload whose `repo_url`, `commit_sha` and
`pages_url` each serialize `None` as the literal string `"None"` — not
the fixed fallback placeholders `"..."` — and delivery still
proceeds. -/
theorem collect_state_error_yields_none_strings (h : Host) (ct : ClientTask)
    (gen : GenFn) (scratch : List (String × String)) (pre : Bool)
    (files : List FileContent)
    (hop : h.failOps.contains "get_output_data" = true)
    (hgen : get_file_content ct gen = .ok files) :
    get_output_data h ("test_" ++ ct.task) = emptyOutputData ∧
    (runPipeline h ct gen scratch pre).2.new_data = emptyOutputData ∧
    (runPipeline h ct gen scratch pre).2.payload.repo_url =
      JsonVal.str "None" ∧
    (runPipeline h ct gen scratch pre).2.payload.commit_sha =
      JsonVal.str "None" ∧
    (runPipeline h ct gen scratch pre).2.payload.pages_url =
      JsonVal.str "None" ∧
    (runPipeline h ct gen scratch pre).2.payload.repo_url ≠
      JsonVal.str "..." ∧
    (runPipeline h ct gen scratch pre).2.deliveryInvoked = true := by
  have hout : ∀ h2 : Host, h2.failOps.contains "get_output_data" = true →
      ∀ n, get_output_data h2 n = emptyOutputData := by
    intro h2 hop2 n
    unfold get_output_data
    rw [if_pos hop2]
  have h4op : (hostAfterProvisioning h ct files scratch
      ).failOps.contains "get_output_data" = true := by
    rw [failOps_hostAfterProvisioning]
    exact hop
  have hrun : (runPipeline h ct gen scratch pre).2 =
      background_job ct pre (.ok emptyOutputData) := by
    unfold runPipeline
    rw [runGithubPhase_of_gen_ok h ct gen scratch files hgen]
    rw [hout _ h4op]
  refine ⟨hout h hop _, ?_, ?_, ?_, ?_, ?_, ?_⟩ <;> rw [hrun]
  · rfl
  · rfl
  · rfl
  · rfl
  · show JsonVal.str "None" ≠ JsonVal.str "..."
    decide
  · rfl

/-- Witness for C10: a host failing only the collect-state operation,
with the demo job and generator: the pipeline payload carries the
three `"None"` strings and delivery is invoked. -/
theorem collect_state_error_witness :
    (runPipeline ⟨"owner", [], ["get_output_data"]⟩ demoTaskEmpty demoGen []
      false).2.payload.repo_url = JsonVal.str "None" ∧
    (runPipeline ⟨"owner", [], ["get_output_data"]⟩ demoTaskEmpty demoGen []
      false).2.deliveryInvoked = true :=
  ⟨(collect_state_error_yields_none_strings ⟨"owner", [], ["get_output_data"]⟩
      demoTaskEmpty demoGen [] false [⟨"index.html", "<h1>hi</h1>", "init"⟩]
      (by rfl) (by rfl)).2.2.1,
   (collect_state_error_yields_none_strings ⟨"owner", [], ["get_output_data"]⟩
      demoTaskEmpty demoGen [] false [⟨"index.html", "<h1>hi</h1>", "init"⟩]
      (by rfl) (by rfl)).2.2.2.2.2.2⟩
